import Mathlib

/-!
Shallow embedding of the HealthySys client-registry service
(`src/utils.py`, `src/db.py`, `src/main.py`) and verification of the
frozen specification claims against it.

Conventions of the embedding:
* Python exceptions are modelled by `Except PyErr`; a `ValueError` and a
  generic exception are the two classes the HTTP layer distinguishes.
* The SQLite store behind `databases.Database` is modelled as in-memory
  lists of rows (`DB`); parameterised `INSERT`/`SELECT`/`UPDATE`
  statements become list operations, with `NOT NULL` and primary-key
  constraints enforced at insert.
* Nondeterministic inputs of the code (`uuid4()` draws,
  `datetime.utcnow()` readings, and whether the SQLAlchemy audit-log
  commit succeeds) are passed as explicit arguments.
-/

namespace HealthySys

/-! ## utils.py -/

/-- Characters removed by Python's `str.strip()` (ASCII whitespace). -/
def pyWsChar (c : Char) : Bool :=
  c == ' ' || c == '\t' || c == '\n' || c == '\r' ||
  c == Char.ofNat 11 || c == Char.ofNat 12

/-- Python `s.strip()`: drop leading and trailing whitespace. -/
def pyStrip (s : String) : String :=
  String.mk (((s.data.dropWhile pyWsChar).reverse.dropWhile pyWsChar).reverse)

/-- Embeds `utils.sanitize_input`: `None` passes through; otherwise the
input is stripped, then every `<`, `>` and `;` character is removed, and
an empty result becomes `None`. -/
def sanitize_input : Option String → Option String
  | none => none
  | some s =>
    let t := String.mk ((pyStrip s).data.filter
      (fun c => !(c == '<' || c == '>' || c == ';')))
    if t.length == 0 then none else some t

/-! ### SHA-256 (the `hashlib.sha256(...).hexdigest()` used by
`utils.hash_contact`), implemented over `Nat` byte lists per FIPS 180-4. -/

/-- Modulus for 32-bit words. -/
def M32 : Nat := 4294967296

/-- 32-bit modular addition. -/
def add32 (a b : Nat) : Nat := (a + b) % M32

/-- Right rotation of a 32-bit word. -/
def rotr32 (n x : Nat) : Nat := x / 2 ^ n + x % 2 ^ n * 2 ^ (32 - n)

/-- Logical right shift. -/
def shr32 (n x : Nat) : Nat := x / 2 ^ n

/-- Bitwise complement of a 32-bit word. -/
def not32 (x : Nat) : Nat := M32 - 1 - x

/-- SHA-256 Ch function. -/
def shaCh (x y z : Nat) : Nat := (x &&& y) ^^^ (not32 x &&& z)

/-- SHA-256 Maj function. -/
def shaMaj (x y z : Nat) : Nat := (x &&& y) ^^^ (x &&& z) ^^^ (y &&& z)

/-- SHA-256 big sigma 0. -/
def shaS0 (x : Nat) : Nat := rotr32 2 x ^^^ rotr32 13 x ^^^ rotr32 22 x

/-- SHA-256 big sigma 1. -/
def shaS1 (x : Nat) : Nat := rotr32 6 x ^^^ rotr32 11 x ^^^ rotr32 25 x

/-- SHA-256 small sigma 0. -/
def shas0 (x : Nat) : Nat := rotr32 7 x ^^^ rotr32 18 x ^^^ shr32 3 x

/-- SHA-256 small sigma 1. -/
def shas1 (x : Nat) : Nat := rotr32 17 x ^^^ rotr32 19 x ^^^ shr32 10 x

/-- SHA-256 round constants. -/
def shaK : List Nat :=
  [1116352408, 1899447441, 3049323471, 3921009573, 961987163,
   1508970993, 2453635748, 2870763221, 3624381080, 310598401,
   607225278, 1426881987, 1925078388, 2162078206, 2614888103,
   3248222580, 3835390401, 4022224774, 264347078, 604807628,
   770255983, 1249150122, 1555081692, 1996064986, 2554220882,
   2821834349, 2952996808, 3210313671, 3336571891, 3584528711,
   113926993, 338241895, 666307205, 773529912, 1294757372,
   1396182291, 1695183700, 1986661051, 2177026350, 2456956037,
   2730485921, 2820302411, 3259730800, 3345764771, 3516065817,
   3600352804, 4094571909, 275423344, 430227734, 506948616,
   659060556, 883997877, 958139571, 1322822218, 1537002063,
   1747873779, 1955562222, 2024104815, 2227730452, 2361852424,
   2428436474, 2756734187, 3204031479, 3329325298]

/-- SHA-256 initial hash value. -/
def shaH0 : List Nat :=
  [1779033703, 3144134277, 1013904242, 2773480762,
   1359893119, 2600822924, 528734635, 1541459225]

/-- Fixed-width big-endian byte decomposition. -/
def beBytes : Nat → Nat → List Nat
  | 0, _ => []
  | n + 1, v => beBytes n (v / 256) ++ [v % 256]

/-- SHA-256 message padding: a `0x80` byte, zeros, then the bit length
in 8 big-endian bytes, to a multiple of 64 bytes. -/
def padMsg (msg : List Nat) : List Nat :=
  msg ++ [128] ++ List.replicate ((119 - msg.length % 64) % 64) 0 ++
    beBytes 8 (8 * msg.length)

/-- Group bytes into big-endian 32-bit words. -/
def toWords : List Nat → List Nat
  | b0 :: b1 :: b2 :: b3 :: rest =>
    (((b0 * 256 + b1) * 256 + b2) * 256 + b3) :: toWords rest
  | _ => []

/-- Extend a 16-word message block by `n` schedule words. -/
def extendW (w : List Nat) : Nat → List Nat
  | 0 => w
  | n + 1 =>
    let i := w.length
    extendW (w ++ [add32 (add32 (shas1 (w.getD (i - 2) 0)) (w.getD (i - 7) 0))
      (add32 (shas0 (w.getD (i - 15) 0)) (w.getD (i - 16) 0))]) n

/-- One SHA-256 compression round on the eight-word working state. -/
def shaRound (kw : Nat × Nat) (s : List Nat) : List Nat :=
  match s with
  | [a, b, c, d, e, f, g, h] =>
    let t1 := add32 h (add32 (shaS1 e) (add32 (shaCh e f g) (add32 kw.1 kw.2)))
    let t2 := add32 (shaS0 a) (shaMaj a b c)
    [add32 t1 t2, a, b, c, add32 d t1, e, f, g]
  | t => t

/-- Process `n` 64-byte chunks, threading the intermediate hash. -/
def shaChunks : Nat → List Nat → List Nat → List Nat
  | 0, _, hs => hs
  | n + 1, bytes, hs =>
    let w := extendW (toWords (bytes.take 64)) 48
    let s := (shaK.zip w).foldl (fun st kw => shaRound kw st) hs
    shaChunks n (bytes.drop 64) (List.zipWith add32 hs s)

/-- SHA-256 of a byte list: the eight final hash words. -/
def sha256Words (msg : List Nat) : List Nat :=
  let p := padMsg msg
  shaChunks (p.length / 64) p shaH0

/-- Lower-case hexadecimal digit. -/
def hexDigit (n : Nat) : Char :=
  if n < 10 then Char.ofNat (48 + n) else Char.ofNat (87 + n)

/-- Fixed-width big-endian hexadecimal rendering. -/
def hexN : Nat → Nat → List Char
  | 0, _ => []
  | d + 1, v => hexN d (v / 16) ++ [hexDigit (v % 16)]

/-- UTF-8 encoding of one character (Python `str.encode()`). -/
def utf8Bytes (c : Char) : List Nat :=
  let n := c.toNat
  if n < 128 then [n]
  else if n < 2048 then [192 + n / 64, 128 + n % 64]
  else if n < 65536 then [224 + n / 4096, 128 + n / 64 % 64, 128 + n % 64]
  else [240 + n / 262144, 128 + n / 4096 % 64, 128 + n / 64 % 64, 128 + n % 64]

/-- UTF-8 bytes of a string. -/
def strBytes (s : String) : List Nat := (s.data.map utf8Bytes).flatten

/-- Embeds `utils.hash_contact`: the SHA-256 hex digest of the UTF-8
encoded contact string. -/
def hash_contact (contact : String) : String :=
  String.mk ((sha256Words (strBytes contact)).map (hexN 8)).flatten

/-! ## db.py — the SQLite store and its query functions -/

/-- Row of the `programs` table (`program_id` primary key, `name` NOT
NULL, `description` nullable). -/
structure ProgramRow where
  program_id : String
  name : String
  description : Option String
deriving DecidableEq

/-- Row of the `clients` table (all columns NOT NULL). -/
structure ClientRow where
  client_id : String
  first_name : String
  last_name : String
  dob : String
  gender : String
  contact : String
  created_at : String
deriving DecidableEq

/-- Row of the `enrollments` table. -/
structure EnrollmentRow where
  enrollment_id : String
  client_id : String
  program_id : String
  enrollment_date : String
deriving DecidableEq

/-- The three domain tables of `health_system.db`. -/
structure DB where
  programs : List ProgramRow
  clients : List ClientRow
  enrollments : List EnrollmentRow
deriving DecidableEq

/-- The two exception classes the HTTP layer distinguishes: `ValueError`
and every other `Exception` (integrity errors, attribute errors, audit
commit failures, ...). -/
inductive PyErr where
  | valueError (msg : String)
  | otherError (msg : String)
deriving DecidableEq

/-- Embeds `db.create_program`: inserts a row with the freshly drawn
`program_id` and returns the id. There is no duplicate check; the only
failures are the SQLite `NOT NULL` constraint on `name` and the primary
key constraint, both generic (non-`ValueError`) exceptions. The
generated `uuid4()` is the explicit `program_id` argument. -/
def create_program (name description : Option String) (program_id : String)
    (db : DB) : Except PyErr (String × DB) :=
  match name with
  | none => .error (.otherError "NOT NULL constraint failed: programs.name")
  | some n =>
    if db.programs.any (fun r => r.program_id == program_id) then
      .error (.otherError "UNIQUE constraint failed: programs.program_id")
    else
      .ok (program_id,
        { db with programs := db.programs ++ [⟨program_id, n, description⟩] })

/-- Embeds `db.create_client`: first a `SELECT` for a row matching all
five fields (SQL `=` against a NULL parameter matches nothing, hence the
`some _ == _` comparisons); a match raises
`ValueError("Client already exists with ID: ...")`. Otherwise the row is
inserted with the drawn `client_id` and the `utcnow()` reading
`created_at`, subject to the NOT NULL and primary-key constraints. -/
def create_client (first_name last_name dob gender contact : Option String)
    (client_id created_at : String) (db : DB) : Except PyErr (String × DB) :=
  match db.clients.find? (fun r =>
      some r.first_name == first_name && some r.last_name == last_name &&
      some r.dob == dob && some r.gender == gender &&
      some r.contact == contact) with
  | some r => .error (.valueError ("Client already exists with ID: " ++ r.client_id))
  | none =>
    match first_name, last_name, dob, gender, contact with
    | some fn, some ln, some d, some g, some ct =>
      if db.clients.any (fun r => r.client_id == client_id) then
        .error (.otherError "UNIQUE constraint failed: clients.client_id")
      else
        .ok (client_id,
          { db with clients :=
              db.clients ++ [⟨client_id, fn, ln, d, g, ct, created_at⟩] })
    | _, _, _, _, _ => .error (.otherError "NOT NULL constraint failed: clients")

/-- Embeds `db.check_client_exists`. -/
def check_client_exists (client_id : String) (db : DB) : Bool :=
  db.clients.any (fun r => r.client_id == client_id)

/-- Embeds `db.check_program_exists`. -/
def check_program_exists (program_id : String) (db : DB) : Bool :=
  db.programs.any (fun r => r.program_id == program_id)

/-- Embeds `db.create_enrollment`: validates that the referenced client
and program exist (raising `ValueError("Client does not exist")` or
`ValueError("Program does not exist")`), then inserts a row with the
drawn `enrollment_id` and the `utcnow()` reading `enrollment_date`.
There is no check against an existing (client_id, program_id) pair. -/
def create_enrollment (client_id program_id enrollment_id enrollment_date : String)
    (db : DB) : Except PyErr (String × DB) :=
  if !check_client_exists client_id db then
    .error (.valueError "Client does not exist")
  else if !check_program_exists program_id db then
    .error (.valueError "Program does not exist")
  else if db.enrollments.any (fun r => r.enrollment_id == enrollment_id) then
    .error (.otherError "UNIQUE constraint failed: enrollments.enrollment_id")
  else
    .ok (enrollment_id,
      { db with enrollments :=
          db.enrollments ++ [⟨enrollment_id, client_id, program_id, enrollment_date⟩] })

/-- The dictionary built by `db.get_client_profile`: the client columns
plus one entry per row of the `programs JOIN enrollments` query. -/
structure ClientProfile where
  client_id : String
  first_name : String
  last_name : String
  dob : String
  gender : String
  contact : String
  created_at : String
  programs : List ProgramRow
deriving DecidableEq

/-- Embeds `db.get_client_profile`: `None` when no client row matches;
otherwise the client plus, for each enrollment of the client, the
program row joined on `program_id` (the join contributes one entry per
matching enrollment row). -/
def get_client_profile (client_id : String) (db : DB) : Option ClientProfile :=
  match db.clients.find? (fun r => r.client_id == client_id) with
  | none => none
  | some c =>
    some ⟨c.client_id, c.first_name, c.last_name, c.dob, c.gender, c.contact,
      c.created_at,
      (db.enrollments.filter (fun e => e.client_id == client_id)).filterMap
        (fun e => db.programs.find? (fun p => p.program_id == e.program_id))⟩

/-! ## main.py — identities, the guard, the audit recorder, endpoints -/

/-- The resolved identity handed to a request by `fastapi_users`
(`User.id` and its `role` column). -/
structure User where
  id : String
  role : String
deriving DecidableEq

/-- An `HTTPException`: status code and `detail` string. -/
structure HTTPError where
  status : Nat
  detail : String
deriving DecidableEq

/-- Embeds `main.require_role`: exact string comparison of the user's
role against the required role; a mismatch raises a 403 naming the
required role, a match passes the user through unchanged. -/
def require_role (role : String) (user : User) : Except HTTPError User :=
  if user.role != role then
    .error ⟨403, "Operation requires " ++ role ++ " role"⟩
  else
    .ok user

/-- Row of the `audit_log` table (the auto-increment id and timestamp
are left implicit). -/
structure AuditEntry where
  user_id : String
  action : String
  details : String
deriving DecidableEq

/-- Embeds `main.log_action`: `session.add` plus `session.commit`.
Whether the commit succeeds is outside the embedded code (the SQLAlchemy
session may raise), so it is the explicit `commitOk` argument; a failed
commit raises a generic exception and appends nothing. -/
def log_action (user_id action details : String) (commitOk : Bool)
    (audit : List AuditEntry) : Except PyErr (List AuditEntry) :=
  if commitOk then .ok (audit ++ [⟨user_id, action, details⟩])
  else .error (.otherError "audit commit failed")

/-- Python rendering of an optional string inside an f-string
(`None` prints as "None"). -/
def optStr : Option String → String
  | none => "None"
  | some s => s

/-- Python's `in` on strings: substring containment. -/
def strContains (hay needle : String) : Bool :=
  (List.range (hay.length + 1)).any
    (fun i => needle.data.isPrefixOf (hay.data.drop i))

/-- The `description` expression of `create_program_endpoint`:
`sanitize_input(program.description) if program.description else None`
(both `None` and the empty string are falsy). -/
def descArg : Option String → Option String
  | none => none
  | some d => if d != "" then sanitize_input (some d) else none

/-- Response dictionary of `POST /api/programs`. -/
structure ProgramResponse where
  program_id : String
  name : Option String
  description : Option String
deriving DecidableEq

/-- Embeds `main.create_program_endpoint`: `require_role("admin")`, then
inside the `try` block sanitization, `db.create_program`, and
`log_action`; an escaping `ValueError` maps to 409 and any other
exception to 400 with the "Failed to create program" prefix. Returns
the response (or error) together with the resulting store and audit
log. -/
def create_program_endpoint (user : User) (pname : String)
    (pdescription : Option String) (newId : String) (commitOk : Bool)
    (db : DB) (audit : List AuditEntry) :
    Except HTTPError ProgramResponse × DB × List AuditEntry :=
  match require_role "admin" user with
  | .error e => (.error e, db, audit)
  | .ok current_user =>
    let name := sanitize_input (some pname)
    let description := descArg pdescription
    match create_program name description newId db with
    | .error (.valueError msg) => (.error ⟨409, msg⟩, db, audit)
    | .error (.otherError msg) =>
      (.error ⟨400, "Failed to create program: " ++ msg⟩, db, audit)
    | .ok (program_id, db1) =>
      match log_action current_user.id "create_program"
          ("Program ID: " ++ program_id ++ ", Name: " ++ optStr name)
          commitOk audit with
      | .error (.valueError msg) => (.error ⟨409, msg⟩, db1, audit)
      | .error (.otherError msg) =>
        (.error ⟨400, "Failed to create program: " ++ msg⟩, db1, audit)
      | .ok audit1 => (.ok ⟨program_id, name, description⟩, db1, audit1)

/-- Response dictionary of `POST /api/clients`: the sanitized request
fields (contact in plaintext), a fresh `utcnow()` reading, and an empty
program list. -/
structure ClientResponse where
  client_id : String
  first_name : Option String
  last_name : Option String
  dob : Option String
  gender : Option String
  contact : Option String
  created_at : String
  programs : List ProgramRow
deriving DecidableEq

/-- `hash_contact` applied to a sanitized value: `hash_contact(None)`
raises (`None.encode()` is an `AttributeError`, a generic exception). -/
def hashArg : Option String → Except PyErr String
  | none => .error (.otherError "NoneType has no attribute encode")
  | some c => .ok (hash_contact c)

/-- Embeds `main.create_client_endpoint`: `require_role("staff")`, then
sanitization of the five fields, hashing of the sanitized contact,
`db.create_client` on the hashed contact, and `log_action`. `ValueError`
maps to 409, any other exception to 400 with the "Failed to create
client" prefix. `dbNow` is the `utcnow()` drawn inside
`db.create_client`, `respNow` the separate one drawn for the response
body. -/
def create_client_endpoint (user : User)
    (rfirst rlast rdob rgender rcontact : String)
    (newId dbNow respNow : String) (commitOk : Bool)
    (db : DB) (audit : List AuditEntry) :
    Except HTTPError ClientResponse × DB × List AuditEntry :=
  match require_role "staff" user with
  | .error e => (.error e, db, audit)
  | .ok current_user =>
    let first_name := sanitize_input (some rfirst)
    let last_name := sanitize_input (some rlast)
    let dob := sanitize_input (some rdob)
    let gender := sanitize_input (some rgender)
    let contact := sanitize_input (some rcontact)
    match hashArg contact with
    | .error (.valueError msg) => (.error ⟨409, msg⟩, db, audit)
    | .error (.otherError msg) =>
      (.error ⟨400, "Failed to create client: " ++ msg⟩, db, audit)
    | .ok hashed_contact =>
      match create_client first_name last_name dob gender (some hashed_contact)
          newId dbNow db with
      | .error (.valueError msg) => (.error ⟨409, msg⟩, db, audit)
      | .error (.otherError msg) =>
        (.error ⟨400, "Failed to create client: " ++ msg⟩, db, audit)
      | .ok (client_id, db1) =>
        match log_action current_user.id "create_client"
            ("Client ID: " ++ client_id ++ ", Name: " ++ optStr first_name ++
              " " ++ optStr last_name) commitOk audit with
        | .error (.valueError msg) => (.error ⟨409, msg⟩, db1, audit)
        | .error (.otherError msg) =>
          (.error ⟨400, "Failed to create client: " ++ msg⟩, db1, audit)
        | .ok audit1 =>
          (.ok ⟨client_id, first_name, last_name, dob, gender, contact,
            respNow, []⟩, db1, audit1)

/-- Response dictionary of `POST /api/enrollments` (again with its own
`utcnow()` reading, distinct from the stored one). -/
structure EnrollmentResponse where
  enrollment_id : String
  client_id : String
  program_id : String
  enrollment_date : String
deriving DecidableEq

/-- Embeds `main.create_enrollment_endpoint`: `require_role("staff")`,
then `db.create_enrollment` and `log_action`. A `ValueError` whose
message contains "already exists" maps to 409, any other `ValueError` to
404, and any other exception to 400 with the "Failed to create
enrollment" prefix. -/
def create_enrollment_endpoint (user : User) (client_id program_id : String)
    (newId dbNow respNow : String) (commitOk : Bool)
    (db : DB) (audit : List AuditEntry) :
    Except HTTPError EnrollmentResponse × DB × List AuditEntry :=
  match require_role "staff" user with
  | .error e => (.error e, db, audit)
  | .ok current_user =>
    match create_enrollment client_id program_id newId dbNow db with
    | .error (.valueError msg) =>
      if strContains msg "already exists" then (.error ⟨409, msg⟩, db, audit)
      else (.error ⟨404, msg⟩, db, audit)
    | .error (.otherError msg) =>
      (.error ⟨400, "Failed to create enrollment: " ++ msg⟩, db, audit)
    | .ok (enrollment_id, db1) =>
      match log_action current_user.id "create_enrollment"
          ("Enrollment ID: " ++ enrollment_id ++ ", Client ID: " ++ client_id ++
            ", Program ID: " ++ program_id) commitOk audit with
      | .error (.valueError msg) =>
        if strContains msg "already exists" then (.error ⟨409, msg⟩, db1, audit)
        else (.error ⟨404, msg⟩, db1, audit)
      | .error (.otherError msg) =>
        (.error ⟨400, "Failed to create enrollment: " ++ msg⟩, db1, audit)
      | .ok audit1 =>
        (.ok ⟨enrollment_id, client_id, program_id, respNow⟩, db1, audit1)

/-- Embeds `main.get_client_profile_endpoint`: no role gate (any
authenticated identity), `db.get_client_profile`, a missing profile
raises `ValueError("Client not found")` mapped to 404, and `log_action`
before the profile is returned; other exceptions map to 400. -/
def get_client_profile_endpoint (user : User) (client_id : String)
    (commitOk : Bool) (db : DB) (audit : List AuditEntry) :
    Except HTTPError ClientProfile × DB × List AuditEntry :=
  match get_client_profile client_id db with
  | none => (.error ⟨404, "Client not found"⟩, db, audit)
  | some profile =>
    match log_action user.id "get_client_profile" ("Client ID: " ++ client_id)
        commitOk audit with
    | .error (.valueError msg) => (.error ⟨404, msg⟩, db, audit)
    | .error (.otherError msg) =>
      (.error ⟨400, "Failed to fetch client profile: " ++ msg⟩, db, audit)
    | .ok audit1 => (.ok profile, db, audit1)

/-- Row of the `user` table as far as `set_user_role` touches it. -/
structure UserRow where
  id : String
  email : String
  role : String
deriving DecidableEq

/-- Embeds `main.set_user_role` (`POST /api/set-role`):
`require_role("admin")`, sanitization of email and role, a whitelist
check raising `ValueError("Invalid role")`, an `UPDATE ... WHERE email`
whose zero rowcount raises `ValueError("User not found")`, and
`log_action`. The source writes the `ValueError` handler as
`circa ValueError as e:` — read here as the evident slip for
`except ValueError as e:` (the parallel handler in `init_admin` is
spelled `except`) — mapping every `ValueError` to 404; any other
exception maps to 400 with the "Failed to update role" prefix. -/
def set_user_role (current : User) (remail rrole : String) (commitOk : Bool)
    (users : List UserRow) (audit : List AuditEntry) :
    Except HTTPError String × List UserRow × List AuditEntry :=
  match require_role "admin" current with
  | .error e => (.error e, users, audit)
  | .ok current_user =>
    let email := sanitize_input (some remail)
    let role := sanitize_input (some rrole)
    if !(role == some "admin" || role == some "staff" || role == some "viewer") then
      (.error ⟨404, "Invalid role"⟩, users, audit)
    else if (users.filter (fun u => some u.email == email)).length == 0 then
      (.error ⟨404, "User not found"⟩, users, audit)
    else
      let users1 := users.map (fun u =>
        if some u.email == email then { u with role := optStr role } else u)
      match log_action current_user.id "set_role"
          ("User: " ++ optStr email ++ ", New Role: " ++ optStr role)
          commitOk audit with
      | .error (.valueError msg) => (.error ⟨404, msg⟩, users1, audit)
      | .error (.otherError msg) =>
        (.error ⟨400, "Failed to update role: " ++ msg⟩, users1, audit)
      | .ok audit1 =>
        (.ok ("Role updated for " ++ optStr email ++ " to " ++ optStr role),
          users1, audit1)

/-- Whether an HTTP result is a success response (the endpoint's
declared success status, 200 or 201) rather than an `HTTPException`. -/
def isSuccess {α : Type} : Except HTTPError α → Bool
  | .ok _ => true
  | .error _ => false

/-! ## Concrete fixtures used by the closed theorems -/

/-- An identity with role `admin`. -/
def adminUser : User := ⟨"u-admin", "admin"⟩

/-- An identity with role `staff`. -/
def staffUser : User := ⟨"u-staff", "staff"⟩

/-- The freshly initialized store: all three tables empty. -/
def emptyDB : DB := ⟨[], [], []⟩

/-- A store holding one program and one client (as created by prior
`create_program` / `create_client` calls). -/
def seededDB : DB :=
  ⟨[⟨"p1", "Prog", none⟩], [⟨"c1", "A", "B", "2000-01-01", "F", "h", "t0"⟩], []⟩

/-- A store in which client c1 was enrolled twice in the same program
p1 (reachable, since enrollment duplicates are not rejected). -/
def dupEnrollDB : DB :=
  ⟨[⟨"p1", "Prog", none⟩], [⟨"c1", "A", "B", "2000-01-01", "F", "h", "t0"⟩],
   [⟨"e1", "c1", "p1", "d1"⟩, ⟨"e2", "c1", "p1", "d2"⟩]⟩

/-- The user table used by the set-role theorems. -/
def userTable : List UserRow := [⟨"u9", "bob@x.com", "viewer"⟩]

/-! ## Claim C1 — duplicate program creation -/

/-- C1 is false on the code: `db.create_program` contains no duplicate
check, so creating a program twice with an identical name and
description succeeds both times (201 with a fresh id each), never
answering 409 Conflict. Here both calls on the same store return
success. -/
theorem c1_duplicate_program_not_rejected :
    (create_program_endpoint adminUser "TB Care" (some "desc") "pid-1" true
      emptyDB []).1 = .ok ⟨"pid-1", some "TB Care", some "desc"⟩ ∧
    (create_program_endpoint adminUser "TB Care" (some "desc") "pid-2" true
      (create_program_endpoint adminUser "TB Care" (some "desc") "pid-1" true
        emptyDB []).2.1
      (create_program_endpoint adminUser "TB Care" (some "desc") "pid-1" true
        emptyDB []).2.2).1 = .ok ⟨"pid-2", some "TB Care", some "desc"⟩ :=
  ⟨rfl, rfl⟩

/-- C1 amended: `create_program` performs no duplicate check, so a
second call with the identical name and description also succeeds with
201 and a distinct freshly generated `program_id`; both rows end up in
the store. -/
theorem c1_duplicate_program_both_created (user : User) (pname n : String)
    (pdescr : Option String) (id1 id2 : String) (db : DB)
    (audit : List AuditEntry)
    (hrole : user.role = "admin")
    (hname : sanitize_input (some pname) = some n)
    (h1 : db.programs.any (fun r => r.program_id == id1) = false)
    (h2 : db.programs.any (fun r => r.program_id == id2) = false)
    (h12 : id2 ≠ id1) :
    create_program_endpoint user pname pdescr id1 true db audit =
      (.ok ⟨id1, some n, descArg pdescr⟩,
       { db with programs := db.programs ++ [⟨id1, n, descArg pdescr⟩] },
       audit ++ [⟨user.id, "create_program",
         "Program ID: " ++ id1 ++ ", Name: " ++ n⟩]) ∧
    create_program_endpoint user pname pdescr id2 true
        { db with programs := db.programs ++ [⟨id1, n, descArg pdescr⟩] }
        (audit ++ [⟨user.id, "create_program",
          "Program ID: " ++ id1 ++ ", Name: " ++ n⟩]) =
      (.ok ⟨id2, some n, descArg pdescr⟩,
       { db with programs := db.programs ++
           [⟨id1, n, descArg pdescr⟩, ⟨id2, n, descArg pdescr⟩] },
       audit ++ [⟨user.id, "create_program",
           "Program ID: " ++ id1 ++ ", Name: " ++ n⟩,
         ⟨user.id, "create_program",
           "Program ID: " ++ id2 ++ ", Name: " ++ n⟩]) := by
  constructor
  · simp [create_program_endpoint, require_role, hrole, hname, create_program,
      h1, log_action, optStr]
  · simp [create_program_endpoint, require_role, hrole, hname, create_program,
      List.any_append, h2, log_action, optStr, beq_eq_false_iff_ne,
      Ne.symm h12]

/-- Witness for `c1_duplicate_program_both_created` at concrete
inputs. -/
theorem c1_duplicate_program_both_created_witness :
    create_program_endpoint adminUser "TB Care" (some "desc") "pid-1" true
        emptyDB [] =
      (.ok ⟨"pid-1", some "TB Care", some "desc"⟩,
       ⟨[⟨"pid-1", "TB Care", some "desc"⟩], [], []⟩,
       [⟨"u-admin", "create_program", "Program ID: pid-1, Name: TB Care"⟩]) ∧
    create_program_endpoint adminUser "TB Care" (some "desc") "pid-2" true
        ⟨[⟨"pid-1", "TB Care", some "desc"⟩], [], []⟩
        [⟨"u-admin", "create_program", "Program ID: pid-1, Name: TB Care"⟩] =
      (.ok ⟨"pid-2", some "TB Care", some "desc"⟩,
       ⟨[⟨"pid-1", "TB Care", some "desc"⟩, ⟨"pid-2", "TB Care", some "desc"⟩],
        [], []⟩,
       [⟨"u-admin", "create_program", "Program ID: pid-1, Name: TB Care"⟩,
        ⟨"u-admin", "create_program", "Program ID: pid-2, Name: TB Care"⟩]) := by
  have h := c1_duplicate_program_both_created adminUser "TB Care" "TB Care"
    (some "desc") "pid-1" "pid-2" emptyDB [] (by decide) (by decide)
    (by decide) (by decide) (by decide)
  exact h

/-! ## Claim C2 — the access-control guard -/

/-- C2 is false as stated: it calls `POST /api/programs` a staff-gated
endpoint at which an admin identity is a mismatch to be rejected with
403. In the code the endpoint is gated by `require_role("admin")`, so
an admin identity passes the guard unchanged and the request
succeeds. -/
theorem c2_admin_not_rejected_at_programs :
    require_role "admin" adminUser = .ok adminUser ∧
    (create_program_endpoint adminUser "TB Care" none "pid-1" true
      emptyDB []).1 = .ok ⟨"pid-1", some "TB Care", none⟩ :=
  ⟨rfl, rfl⟩

/-- C2 amended: the guard authorizes the identity iff `identity.role`
equals the required role by exact string equality, returning the
identity unchanged on a match and failing with 403 naming the required
role on any mismatch — including role `staff` at the admin-gated
`POST /api/programs`, where the whole request is rejected with 403
before any effect on the store or the audit log. -/
theorem c2_role_guard_exact_match (user : User) (role : String) :
    (user.role = role → require_role role user = .ok user) ∧
    (user.role ≠ role →
      require_role role user =
        .error ⟨403, "Operation requires " ++ role ++ " role"⟩) ∧
    (user.role ≠ "admin" → ∀ pname pdescr newId commitOk db audit,
      create_program_endpoint user pname pdescr newId commitOk db audit =
        (.error ⟨403, "Operation requires admin role"⟩, db, audit)) := by
  refine ⟨?_, ?_, ?_⟩
  · intro h
    simp [require_role, h]
  · intro h
    simp [require_role, bne_iff_ne, h]
  · intro h pname pdescr newId commitOk db audit
    simp only [create_program_endpoint, require_role, bne_iff_ne]
    rw [if_pos h]
    rfl

/-- Witness for `c2_role_guard_exact_match` at concrete inputs: a staff
identity matches a staff requirement and is rejected at the admin-gated
program endpoint. -/
theorem c2_role_guard_exact_match_witness :
    require_role "staff" staffUser = .ok staffUser ∧
    create_program_endpoint staffUser "TB Care" none "pid-1" true emptyDB [] =
      (.error ⟨403, "Operation requires admin role"⟩, emptyDB, []) :=
  ⟨(c2_role_guard_exact_match staffUser "staff").1 rfl,
   (c2_role_guard_exact_match staffUser "staff").2.2 (by decide) "TB Care"
     none "pid-1" true emptyDB []⟩

/-! ## Claim C3 — duplicate enrollment creation -/

/-- C3 is false on the code: `db.create_enrollment` only checks that
the referenced client and program exist, never whether an enrollment
with the same (client_id, program_id) already does, so a second request
for the same pair inserts a second row with a fresh `enrollment_id`
instead of answering 409. Here both calls on a store holding the client
and program succeed. -/
theorem c3_duplicate_enrollment_not_rejected :
    (create_enrollment_endpoint staffUser "c1" "p1" "e1" "d1" "d2" true
      seededDB []).1 = .ok ⟨"e1", "c1", "p1", "d2"⟩ ∧
    (create_enrollment_endpoint staffUser "c1" "p1" "e2" "d3" "d4" true
      (create_enrollment_endpoint staffUser "c1" "p1" "e1" "d1" "d2" true
        seededDB []).2.1
      (create_enrollment_endpoint staffUser "c1" "p1" "e1" "d1" "d2" true
        seededDB []).2.2).1 = .ok ⟨"e2", "c1", "p1", "d4"⟩ :=
  ⟨rfl, rfl⟩

/-- C3 amended: for a (client_id, program_id) pair whose enrollment
already exists, `create_enrollment` accepts the second request as well,
inserting a second enrollment row with a fresh `enrollment_id`; no
duplicate rejection takes place, and afterwards the store holds two
enrollment rows for the same pair. -/
theorem c3_duplicate_enrollment_both_created (user : User)
    (cid pid eid1 eid2 d1 d2 r1 r2 : String) (db : DB)
    (audit : List AuditEntry)
    (hrole : user.role = "staff")
    (hc : check_client_exists cid db = true)
    (hp : check_program_exists pid db = true)
    (h1 : db.enrollments.any (fun r => r.enrollment_id == eid1) = false)
    (h2 : db.enrollments.any (fun r => r.enrollment_id == eid2) = false)
    (h12 : eid2 ≠ eid1) :
    create_enrollment_endpoint user cid pid eid1 d1 r1 true db audit =
      (.ok ⟨eid1, cid, pid, r1⟩,
       { db with enrollments := db.enrollments ++ [⟨eid1, cid, pid, d1⟩] },
       audit ++ [⟨user.id, "create_enrollment", "Enrollment ID: " ++ eid1 ++
         ", Client ID: " ++ cid ++ ", Program ID: " ++ pid⟩]) ∧
    create_enrollment_endpoint user cid pid eid2 d2 r2 true
        { db with enrollments := db.enrollments ++ [⟨eid1, cid, pid, d1⟩] }
        (audit ++ [⟨user.id, "create_enrollment", "Enrollment ID: " ++ eid1 ++
          ", Client ID: " ++ cid ++ ", Program ID: " ++ pid⟩]) =
      (.ok ⟨eid2, cid, pid, r2⟩,
       { db with enrollments := db.enrollments ++
           [⟨eid1, cid, pid, d1⟩, ⟨eid2, cid, pid, d2⟩] },
       audit ++ [⟨user.id, "create_enrollment", "Enrollment ID: " ++ eid1 ++
           ", Client ID: " ++ cid ++ ", Program ID: " ++ pid⟩,
         ⟨user.id, "create_enrollment", "Enrollment ID: " ++ eid2 ++
           ", Client ID: " ++ cid ++ ", Program ID: " ++ pid⟩]) := by
  have hc1 : check_client_exists cid
      { db with enrollments := db.enrollments ++ [⟨eid1, cid, pid, d1⟩] } =
      true := hc
  have hp1 : check_program_exists pid
      { db with enrollments := db.enrollments ++ [⟨eid1, cid, pid, d1⟩] } =
      true := hp
  have he2 : (db.enrollments ++ ([⟨eid1, cid, pid, d1⟩] : List EnrollmentRow)).any
      (fun r => r.enrollment_id == eid2) = false := by
    simp [List.any_append, h2, beq_eq_false_iff_ne, Ne.symm h12]
  constructor
  · simp only [create_enrollment_endpoint, require_role, hrole,
      create_enrollment, hc, hp, h1, log_action]
    rfl
  · simp [create_enrollment_endpoint, require_role, hrole,
      create_enrollment, hc1, hp1, he2, log_action]

/-- Witness for `c3_duplicate_enrollment_both_created` at concrete
inputs. -/
theorem c3_duplicate_enrollment_both_created_witness :
    create_enrollment_endpoint staffUser "c1" "p1" "e1" "d1" "r1" true
        seededDB [] =
      (.ok ⟨"e1", "c1", "p1", "r1"⟩,
       ⟨[⟨"p1", "Prog", none⟩],
        [⟨"c1", "A", "B", "2000-01-01", "F", "h", "t0"⟩],
        [⟨"e1", "c1", "p1", "d1"⟩]⟩,
       [⟨"u-staff", "create_enrollment",
         "Enrollment ID: e1, Client ID: c1, Program ID: p1"⟩]) ∧
    create_enrollment_endpoint staffUser "c1" "p1" "e2" "d2" "r2" true
        ⟨[⟨"p1", "Prog", none⟩],
         [⟨"c1", "A", "B", "2000-01-01", "F", "h", "t0"⟩],
         [⟨"e1", "c1", "p1", "d1"⟩]⟩
        [⟨"u-staff", "create_enrollment",
          "Enrollment ID: e1, Client ID: c1, Program ID: p1"⟩] =
      (.ok ⟨"e2", "c1", "p1", "r2"⟩,
       ⟨[⟨"p1", "Prog", none⟩],
        [⟨"c1", "A", "B", "2000-01-01", "F", "h", "t0"⟩],
        [⟨"e1", "c1", "p1", "d1"⟩, ⟨"e2", "c1", "p1", "d2"⟩]⟩,
       [⟨"u-staff", "create_enrollment",
          "Enrollment ID: e1, Client ID: c1, Program ID: p1"⟩,
        ⟨"u-staff", "create_enrollment",
          "Enrollment ID: e2, Client ID: c1, Program ID: p1"⟩]) := by
  have h := c3_duplicate_enrollment_both_created staffUser "c1" "p1" "e1"
    "e2" "d1" "d2" "r1" "r2" seededDB [] (by decide) (by decide) (by decide)
    (by decide) (by decide) (by decide)
  exact h

/-! ## Claim C4 — duplicate client creation -/

/-- C4 confirmed: the first `create_client` call with a payload whose
sanitized tuple is not yet stored succeeds with 201, and a second call
with the identical raw payload is rejected with 409 Conflict — the
duplicate `SELECT` compares the hashed contact, and the re-submitted
plaintext re-hashes (`hash_contact` is a function) to the stored value,
so the duplicate is detected. -/
theorem c4_duplicate_client_rejected (user : User)
    (rf rl rd rg rc fns lns ds gs cts id1 id2 t1 t2 t3 t4 : String)
    (db : DB) (audit : List AuditEntry)
    (hrole : user.role = "staff")
    (hf : sanitize_input (some rf) = some fns)
    (hl : sanitize_input (some rl) = some lns)
    (hd : sanitize_input (some rd) = some ds)
    (hg : sanitize_input (some rg) = some gs)
    (hc : sanitize_input (some rc) = some cts)
    (hdup : db.clients.find? (fun r =>
      r.first_name == fns && r.last_name == lns && r.dob == ds &&
      r.gender == gs && r.contact == hash_contact cts) = none)
    (hpk : db.clients.any (fun r => r.client_id == id1) = false) :
    create_client_endpoint user rf rl rd rg rc id1 t1 t2 true db audit =
      (.ok ⟨id1, some fns, some lns, some ds, some gs, some cts, t2, []⟩,
       { db with clients := db.clients ++
           [⟨id1, fns, lns, ds, gs, hash_contact cts, t1⟩] },
       audit ++ [⟨user.id, "create_client",
         "Client ID: " ++ id1 ++ ", Name: " ++ fns ++ " " ++ lns⟩]) ∧
    (create_client_endpoint user rf rl rd rg rc id2 t3 t4 true
        { db with clients := db.clients ++
            [⟨id1, fns, lns, ds, gs, hash_contact cts, t1⟩] }
        (audit ++ [⟨user.id, "create_client",
          "Client ID: " ++ id1 ++ ", Name: " ++ fns ++ " " ++ lns⟩])).1 =
      .error ⟨409, "Client already exists with ID: " ++ id1⟩ := by
  constructor
  · simp [create_client_endpoint, require_role, hrole, hf, hl, hd, hg, hc,
      hashArg, create_client, hdup, hpk, log_action, optStr]
  · simp [create_client_endpoint, require_role, hrole, hf, hl, hd, hg, hc,
      hashArg, create_client, List.find?_append, hdup, log_action, optStr]

/-- Witness for `c4_duplicate_client_rejected` at concrete inputs:
the same payload twice, 201 then 409. -/
theorem c4_duplicate_client_rejected_witness :
    create_client_endpoint staffUser "Jane" "Doe" "2000-01-01" "F"
        "jane@x.com" "c9" "t1" "t2" true emptyDB [] =
      (.ok ⟨"c9", some "Jane", some "Doe", some "2000-01-01", some "F",
          some "jane@x.com", "t2", []⟩,
       ⟨[], [⟨"c9", "Jane", "Doe", "2000-01-01", "F",
          hash_contact "jane@x.com", "t1"⟩], []⟩,
       [⟨"u-staff", "create_client", "Client ID: c9, Name: Jane Doe"⟩]) ∧
    (create_client_endpoint staffUser "Jane" "Doe" "2000-01-01" "F"
        "jane@x.com" "cA" "t3" "t4" true
        ⟨[], [⟨"c9", "Jane", "Doe", "2000-01-01", "F",
           hash_contact "jane@x.com", "t1"⟩], []⟩
        [⟨"u-staff", "create_client", "Client ID: c9, Name: Jane Doe"⟩]).1 =
      .error ⟨409, "Client already exists with ID: c9"⟩ := by
  have h := c4_duplicate_client_rejected staffUser "Jane" "Doe" "2000-01-01"
    "F" "jane@x.com" "Jane" "Doe" "2000-01-01" "F" "jane@x.com" "c9" "cA"
    "t1" "t2" "t3" "t4" emptyDB [] (by decide) (by decide) (by decide)
    (by decide) (by decide) (by decide) (by decide) (by decide)
  exact h

/-! ## Claim C5 — enrollment referential checks -/

/-- C5 confirmed: `create_enrollment` answers 404 with detail
"Client does not exist" when the referenced client is missing, 404 with
"Program does not exist" when the client exists but the program is
missing, and when both exist it persists the enrollment under the
generated id with the `utcnow()` reading and returns it. -/
theorem c5_enrollment_referential_checks (user : User)
    (cid pid eid d1 r1 : String) (db : DB) (audit : List AuditEntry)
    (hrole : user.role = "staff") :
    (check_client_exists cid db = false →
      create_enrollment_endpoint user cid pid eid d1 r1 true db audit =
        (.error ⟨404, "Client does not exist"⟩, db, audit)) ∧
    (check_client_exists cid db = true →
      check_program_exists pid db = false →
      create_enrollment_endpoint user cid pid eid d1 r1 true db audit =
        (.error ⟨404, "Program does not exist"⟩, db, audit)) ∧
    (check_client_exists cid db = true →
      check_program_exists pid db = true →
      db.enrollments.any (fun r => r.enrollment_id == eid) = false →
      create_enrollment_endpoint user cid pid eid d1 r1 true db audit =
        (.ok ⟨eid, cid, pid, r1⟩,
         { db with enrollments := db.enrollments ++ [⟨eid, cid, pid, d1⟩] },
         audit ++ [⟨user.id, "create_enrollment", "Enrollment ID: " ++ eid ++
           ", Client ID: " ++ cid ++ ", Program ID: " ++ pid⟩])) := by
  refine ⟨?_, ?_, ?_⟩
  · intro hc
    simp [create_enrollment_endpoint, require_role, hrole, create_enrollment,
      hc, strContains]
    decide
  · intro hc hp
    simp [create_enrollment_endpoint, require_role, hrole, create_enrollment,
      hc, hp, strContains]
    decide
  · intro hc hp he
    simp [create_enrollment_endpoint, require_role, hrole, create_enrollment,
      hc, hp, he, log_action]

/-- Witness for `c5_enrollment_referential_checks` at concrete inputs:
all three branches on the seeded store. -/
theorem c5_enrollment_referential_checks_witness :
    create_enrollment_endpoint staffUser "cX" "p1" "e1" "d1" "r1" true
        seededDB [] = (.error ⟨404, "Client does not exist"⟩, seededDB, []) ∧
    create_enrollment_endpoint staffUser "c1" "pX" "e1" "d1" "r1" true
        seededDB [] = (.error ⟨404, "Program does not exist"⟩, seededDB, []) ∧
    create_enrollment_endpoint staffUser "c1" "p1" "e1" "d1" "r1" true
        seededDB [] =
      (.ok ⟨"e1", "c1", "p1", "r1"⟩,
       ⟨[⟨"p1", "Prog", none⟩],
        [⟨"c1", "A", "B", "2000-01-01", "F", "h", "t0"⟩],
        [⟨"e1", "c1", "p1", "d1"⟩]⟩,
       [⟨"u-staff", "create_enrollment",
         "Enrollment ID: e1, Client ID: c1, Program ID: p1"⟩]) :=
  ⟨(c5_enrollment_referential_checks staffUser "cX" "p1" "e1" "d1" "r1"
      seededDB [] (by decide)).1 (by decide),
   (c5_enrollment_referential_checks staffUser "c1" "pX" "e1" "d1" "r1"
      seededDB [] (by decide)).2.1 (by decide) (by decide),
   (c5_enrollment_referential_checks staffUser "c1" "p1" "e1" "d1" "r1"
      seededDB [] (by decide)).2.2 (by decide) (by decide) (by decide)⟩

/-! ## Claim C6 — audit-recorder failures -/

/-- C6 is false on the code: an exception raised by `log_action` after
the domain mutation has succeeded is caught by the endpoint's generic
`except Exception` handler and turned into an HTTP 400, so the request
does not complete successfully. The already-performed mutation is
indeed not rolled back. Here the audit commit fails after a successful
program insert: the response is a 400 error while the program row sits
in the store. -/
theorem c6_audit_failure_fails_request :
    isSuccess (create_program_endpoint adminUser "TB" none "p1" false
      emptyDB []).1 = false ∧
    (create_program_endpoint adminUser "TB" none "p1" false emptyDB []).1 =
      .error ⟨400, "Failed to create program: audit commit failed"⟩ ∧
    (create_program_endpoint adminUser "TB" none "p1" false
      emptyDB []).2.1.programs = [⟨"p1", "TB", none⟩] :=
  ⟨rfl, rfl, rfl⟩

/-- C6 amended: when the audit commit raises after the domain mutation
has succeeded, each create endpoint fails the request with HTTP 400
(via its generic exception handler), while the already-performed
mutation is kept — the inserted row is still in the returned store and
nothing is appended to the audit log. -/
theorem c6_audit_failure_keeps_mutation (ua us : User) (db : DB)
    (audit : List AuditEntry)
    (hua : ua.role = "admin") (hus : us.role = "staff") :
    (∀ pname n pdescr pid, sanitize_input (some pname) = some n →
      db.programs.any (fun r => r.program_id == pid) = false →
      create_program_endpoint ua pname pdescr pid false db audit =
        (.error ⟨400, "Failed to create program: audit commit failed"⟩,
         { db with programs := db.programs ++ [⟨pid, n, descArg pdescr⟩] },
         audit)) ∧
    (∀ rf rl rd rg rc fns lns ds gs cts cid t1 t2,
      sanitize_input (some rf) = some fns →
      sanitize_input (some rl) = some lns →
      sanitize_input (some rd) = some ds →
      sanitize_input (some rg) = some gs →
      sanitize_input (some rc) = some cts →
      db.clients.find? (fun r =>
        r.first_name == fns && r.last_name == lns && r.dob == ds &&
        r.gender == gs && r.contact == hash_contact cts) = none →
      db.clients.any (fun r => r.client_id == cid) = false →
      create_client_endpoint us rf rl rd rg rc cid t1 t2 false db audit =
        (.error ⟨400, "Failed to create client: audit commit failed"⟩,
         { db with clients := db.clients ++
             [⟨cid, fns, lns, ds, gs, hash_contact cts, t1⟩] },
         audit)) ∧
    (∀ cid pid eid d1 r1,
      check_client_exists cid db = true →
      check_program_exists pid db = true →
      db.enrollments.any (fun r => r.enrollment_id == eid) = false →
      create_enrollment_endpoint us cid pid eid d1 r1 false db audit =
        (.error ⟨400, "Failed to create enrollment: audit commit failed"⟩,
         { db with enrollments := db.enrollments ++ [⟨eid, cid, pid, d1⟩] },
         audit)) := by
  refine ⟨?_, ?_, ?_⟩
  · intro pname n pdescr pid hn hk
    simp [create_program_endpoint, require_role, hua, hn, create_program,
      hk, log_action]
  · intro rf rl rd rg rc fns lns ds gs cts cid t1 t2 hf hl hd hg hc hdup hk
    simp [create_client_endpoint, require_role, hus, hf, hl, hd, hg, hc,
      hashArg, create_client, hdup, hk, log_action]
  · intro cid pid eid d1 r1 hc hp hk
    simp only [create_enrollment_endpoint, require_role, hus,
      create_enrollment, hc, hp, hk, log_action]
    rfl

/-- Witness for `c6_audit_failure_keeps_mutation` at concrete inputs:
all three endpoints with a failing audit commit. -/
theorem c6_audit_failure_keeps_mutation_witness :
    create_program_endpoint adminUser "TB" none "p2" false seededDB [] =
      (.error ⟨400, "Failed to create program: audit commit failed"⟩,
       ⟨[⟨"p1", "Prog", none⟩, ⟨"p2", "TB", none⟩],
        [⟨"c1", "A", "B", "2000-01-01", "F", "h", "t0"⟩], []⟩, []) ∧
    create_client_endpoint staffUser "Jane" "Doe" "2000-01-01" "F"
        "jane@x.com" "c9" "t1" "t2" false seededDB [] =
      (.error ⟨400, "Failed to create client: audit commit failed"⟩,
       ⟨[⟨"p1", "Prog", none⟩],
        [⟨"c1", "A", "B", "2000-01-01", "F", "h", "t0"⟩,
         ⟨"c9", "Jane", "Doe", "2000-01-01", "F",
          hash_contact "jane@x.com", "t1"⟩], []⟩, []) ∧
    create_enrollment_endpoint staffUser "c1" "p1" "e1" "d1" "r1" false
        seededDB [] =
      (.error ⟨400, "Failed to create enrollment: audit commit failed"⟩,
       ⟨[⟨"p1", "Prog", none⟩],
        [⟨"c1", "A", "B", "2000-01-01", "F", "h", "t0"⟩],
        [⟨"e1", "c1", "p1", "d1"⟩]⟩, []) := by
  have h := c6_audit_failure_keeps_mutation adminUser staffUser seededDB []
    (by decide) (by decide)
  exact ⟨h.1 "TB" "TB" none "p2" (by decide) (by decide),
    h.2.1 "Jane" "Doe" "2000-01-01" "F" "jane@x.com" "Jane" "Doe"
      "2000-01-01" "F" "jane@x.com" "c9" "t1" "t2" (by decide) (by decide)
      (by decide) (by decide) (by decide) (by decide) (by decide),
    h.2.2 "c1" "p1" "e1" "d1" "r1" (by decide) (by decide) (by decide)⟩

/-! ## Claim C7 — contact round-trip and hashing at rest -/

/-- C7 is false as universally stated: the endpoint sanitizes the
contact before using it, so a submitted contact containing a removed
character is not returned verbatim. Submitting "a;b" returns "ab". -/
theorem c7_contact_not_returned_verbatim :
    sanitize_input (some "a;b") = some "ab" ∧
    (create_client_endpoint staffUser "Jane" "Doe" "2000-01-01" "F" "a;b"
      "c9" "t1" "t2" true emptyDB []).1 =
      .ok ⟨"c9", some "Jane", some "Doe", some "2000-01-01", some "F",
        some "ab", "t2", []⟩ ∧
    ("ab" : String) ≠ "a;b" :=
  ⟨rfl, rfl, by decide⟩

/-- C7 amended: the success response returns the sanitized contact in
plaintext (equal to the submitted contact whenever sanitization leaves
it unchanged), while the persisted client row stores only its one-way
hash `hash_contact`; and hashing is deterministic — a second run with
the same submitted contact (any other store, ids or timestamps whose
checks pass) persists the identical hash value `hash_contact cts`. -/
theorem c7_contact_hashed_at_rest (user : User)
    (rf rl rd rg rc fns lns ds gs cts cid t1 t2 : String) (db : DB)
    (audit : List AuditEntry)
    (hrole : user.role = "staff")
    (hf : sanitize_input (some rf) = some fns)
    (hl : sanitize_input (some rl) = some lns)
    (hd : sanitize_input (some rd) = some ds)
    (hg : sanitize_input (some rg) = some gs)
    (hc : sanitize_input (some rc) = some cts)
    (hdup : db.clients.find? (fun r =>
      r.first_name == fns && r.last_name == lns && r.dob == ds &&
      r.gender == gs && r.contact == hash_contact cts) = none)
    (hpk : db.clients.any (fun r => r.client_id == cid) = false) :
    create_client_endpoint user rf rl rd rg rc cid t1 t2 true db audit =
      (.ok ⟨cid, some fns, some lns, some ds, some gs, some cts, t2, []⟩,
       { db with clients := db.clients ++
           [⟨cid, fns, lns, ds, gs, hash_contact cts, t1⟩] },
       audit ++ [⟨user.id, "create_client",
         "Client ID: " ++ cid ++ ", Name: " ++ fns ++ " " ++ lns⟩]) ∧
    (∀ db2 audit2 cid2 t3 t4,
      (db2 : DB).clients.find? (fun r =>
        r.first_name == fns && r.last_name == lns && r.dob == ds &&
        r.gender == gs && r.contact == hash_contact cts) = none →
      db2.clients.any (fun r => r.client_id == cid2) = false →
      create_client_endpoint user rf rl rd rg rc cid2 t3 t4 true db2 audit2 =
        (.ok ⟨cid2, some fns, some lns, some ds, some gs, some cts, t4, []⟩,
         { db2 with clients := db2.clients ++
             [⟨cid2, fns, lns, ds, gs, hash_contact cts, t3⟩] },
         audit2 ++ [⟨user.id, "create_client",
           "Client ID: " ++ cid2 ++ ", Name: " ++ fns ++ " " ++ lns⟩])) := by
  constructor
  · simp [create_client_endpoint, require_role, hrole, hf, hl, hd, hg, hc,
      hashArg, create_client, hdup, hpk, log_action, optStr]
  · intro db2 audit2 cid2 t3 t4 hdup2 hpk2
    simp [create_client_endpoint, require_role, hrole, hf, hl, hd, hg, hc,
      hashArg, create_client, hdup2, hpk2, log_action, optStr]

/-- Witness for `c7_contact_hashed_at_rest` at concrete inputs: the
response carries "jane@example.com" in plaintext, the store only
`hash_contact "jane@example.com"`, twice over. -/
theorem c7_contact_hashed_at_rest_witness :
    create_client_endpoint staffUser "Jane" "Doe" "2000-01-01" "F"
        "jane@example.com" "c9" "t1" "t2" true emptyDB [] =
      (.ok ⟨"c9", some "Jane", some "Doe", some "2000-01-01", some "F",
          some "jane@example.com", "t2", []⟩,
       ⟨[], [⟨"c9", "Jane", "Doe", "2000-01-01", "F",
          hash_contact "jane@example.com", "t1"⟩], []⟩,
       [⟨"u-staff", "create_client", "Client ID: c9, Name: Jane Doe"⟩]) ∧
    create_client_endpoint staffUser "Jane" "Doe" "2000-01-01" "F"
        "jane@example.com" "cB" "t5" "t6" true seededDB [] =
      (.ok ⟨"cB", some "Jane", some "Doe", some "2000-01-01", some "F",
          some "jane@example.com", "t6", []⟩,
       ⟨[⟨"p1", "Prog", none⟩],
        [⟨"c1", "A", "B", "2000-01-01", "F", "h", "t0"⟩,
         ⟨"cB", "Jane", "Doe", "2000-01-01", "F",
          hash_contact "jane@example.com", "t5"⟩], []⟩,
       [⟨"u-staff", "create_client", "Client ID: cB, Name: Jane Doe"⟩]) := by
  have h := c7_contact_hashed_at_rest staffUser "Jane" "Doe" "2000-01-01"
    "F" "jane@example.com" "Jane" "Doe" "2000-01-01" "F" "jane@example.com"
    "c9" "t1" "t2" emptyDB [] (by decide) (by decide) (by decide) (by decide)
    (by decide) (by decide) (by decide) (by decide)
  exact ⟨h.1, h.2 seededDB [] "cB" "t5" "t6" (by decide) (by decide)⟩

/-! ## Claim C8 — the client profile and its program entries -/

/-- Helper: `filterMap` keeps the length when the function is defined
on every element of the list. -/
theorem length_filterMap_of_isSome {α β : Type} (f : α → Option β) :
    ∀ l : List α, (∀ a ∈ l, (f a).isSome) →
      (l.filterMap f).length = l.length
  | [], _ => rfl
  | a :: l, h => by
    rcases Option.isSome_iff_exists.mp (h a (List.mem_cons_self a l)) with ⟨b, hb⟩
    simp [List.filterMap_cons, hb,
      length_filterMap_of_isSome f l (fun x hx => h x (List.mem_cons_of_mem a hx))]

/-- C8 is false as stated: the profile query joins programs against the
enrollment rows, producing one entry per enrollment, not one per
program. In the reachable store where c1 holds two enrollments in the
single program p1 — the second enrollment call below produces exactly
that store — the client is enrolled in 1 program but the profile
carries 2 entries. -/
theorem c8_profile_duplicates_entries :
    (create_enrollment_endpoint staffUser "c1" "p1" "e2" "d2" "r2" true
      ⟨[⟨"p1", "Prog", none⟩],
       [⟨"c1", "A", "B", "2000-01-01", "F", "h", "t0"⟩],
       [⟨"e1", "c1", "p1", "d1"⟩]⟩ []).2.1 = dupEnrollDB ∧
    (get_client_profile "c1" dupEnrollDB).map ClientProfile.programs =
      some [⟨"p1", "Prog", none⟩, ⟨"p1", "Prog", none⟩] ∧
    (dupEnrollDB.programs.filter (fun p => dupEnrollDB.enrollments.any
      (fun e => e.client_id == "c1" && e.program_id == p.program_id))).length
      = 1 :=
  ⟨rfl, rfl, rfl⟩

/-- C8 amended: `get_client_profile` answers 404 "Client not found"
when no client has the id; otherwise it returns the client with one
program entry per enrollment row of the client — as a set exactly the
programs reachable via its enrollments (given the primary-key
uniqueness of program ids), but with one entry per enrollment, so the
entry count equals the client's enrollment count (hence N entries for a
client enrolled once each in N programs) and duplicate enrollments
duplicate entries. -/
theorem c8_profile_entries (user : User) (cid : String) (db : DB)
    (audit : List AuditEntry)
    (hpk : (db.programs.map ProgramRow.program_id).Nodup) :
    (db.clients.find? (fun r => r.client_id == cid) = none →
      get_client_profile_endpoint user cid true db audit =
        (.error ⟨404, "Client not found"⟩, db, audit)) ∧
    (∀ c, db.clients.find? (fun r => r.client_id == cid) = some c →
      ∃ pr, (get_client_profile_endpoint user cid true db audit).1 = .ok pr ∧
        (∀ p, p ∈ pr.programs ↔ p ∈ db.programs ∧
          ∃ e ∈ db.enrollments, e.client_id = cid ∧
            e.program_id = p.program_id) ∧
        ((∀ e ∈ db.enrollments, e.client_id = cid →
            check_program_exists e.program_id db = true) →
          pr.programs.length =
            (db.enrollments.filter (fun e => e.client_id == cid)).length)) := by
  constructor
  · intro h
    simp only [get_client_profile_endpoint, get_client_profile, h]
  · intro c hcfind
    refine ⟨⟨c.client_id, c.first_name, c.last_name, c.dob, c.gender,
      c.contact, c.created_at,
      (db.enrollments.filter (fun e => e.client_id == cid)).filterMap
        (fun e => db.programs.find? (fun p => p.program_id == e.program_id))⟩,
      ?_, ?_, ?_⟩
    · simp only [get_client_profile_endpoint, get_client_profile, hcfind,
        log_action]
      rfl
    · intro p
      constructor
      · intro hp
        rcases List.mem_filterMap.mp hp with ⟨e, hef, hfind⟩
        rcases List.mem_filter.mp hef with ⟨hee, heb⟩
        have hpe := List.find?_some hfind
        simp only [] at hpe
        refine ⟨List.mem_of_find?_eq_some hfind, e, hee,
          beq_iff_eq.mp heb, (beq_iff_eq.mp hpe).symm⟩
      · rintro ⟨hpm, e, hee, hecid, hepid⟩
        have hsome : (db.programs.find?
            (fun q => q.program_id == e.program_id)).isSome := by
          exact List.find?_isSome.mpr ⟨p, hpm, beq_iff_eq.mpr hepid.symm⟩
        rcases Option.isSome_iff_exists.mp hsome with ⟨q, hq⟩
        have hqm := List.mem_of_find?_eq_some hq
        have hqe := List.find?_some hq
        simp only [] at hqe
        have hqid : q.program_id = e.program_id := beq_iff_eq.mp hqe
        have hqp : q = p :=
          List.inj_on_of_nodup_map hpk hqm hpm (by rw [hqid, hepid])
        exact List.mem_filterMap.mpr ⟨e,
          List.mem_filter.mpr ⟨hee, beq_iff_eq.mpr hecid⟩, hqp ▸ hq⟩
    · intro hall
      refine length_filterMap_of_isSome _ _ ?_
      intro e hef
      rcases List.mem_filter.mp hef with ⟨hee, heb⟩
      have := hall e hee (beq_iff_eq.mp heb)
      rcases List.any_eq_true.mp this with ⟨q, hqm, hqb⟩
      exact List.find?_isSome.mpr ⟨q, hqm, hqb⟩

/-- Witness for `c8_profile_entries` at concrete inputs: the 404 branch
for an unknown id and, on the duplicate-enrollment store, a profile
whose entry count equals the enrollment count. -/
theorem c8_profile_entries_witness :
    get_client_profile_endpoint staffUser "zz" true dupEnrollDB [] =
      (.error ⟨404, "Client not found"⟩, dupEnrollDB, []) ∧
    ∃ pr, (get_client_profile_endpoint staffUser "c1" true
        dupEnrollDB []).1 = .ok pr ∧
      pr.programs.length =
        (dupEnrollDB.enrollments.filter
          (fun e => e.client_id == "c1")).length := by
  constructor
  · exact (c8_profile_entries staffUser "zz" dupEnrollDB [] (by decide)).1
      (by decide)
  · rcases (c8_profile_entries staffUser "c1" dupEnrollDB [] (by decide)).2
      ⟨"c1", "A", "B", "2000-01-01", "F", "h", "t0"⟩ (by decide) with
      ⟨pr, hok, _, hlen⟩
    exact ⟨pr, hok, hlen (by decide)⟩

/-! ## Claim C9 — POST /api/set-role -/

/-- C9 is false on the invalid-role branch: `ValueError("Invalid role")`
is caught by the same `ValueError` handler as "User not found" and
mapped to 404, not 400. An admin request naming an existing user with
role "superuser" answers 404. -/
theorem c9_invalid_role_gives_404 :
    (set_user_role adminUser "bob@x.com" "superuser" true userTable []).1 =
      .error ⟨404, "Invalid role"⟩ :=
  rfl

/-- C9 amended: a role outside the admin/staff/viewer whitelist fails
with 404 "Invalid role" (the ValueError handler maps both failures to
404); an email matching no user fails with 404 "User not found"; a
valid request updates the matching user's role to the sanitized value
and returns 200 with the confirmation message. -/
theorem c9_set_role_behavior (current : User) (remail rrole : String)
    (users : List UserRow) (audit : List AuditEntry)
    (hrole : current.role = "admin") :
    ((sanitize_input (some rrole) == some "admin" ||
      sanitize_input (some rrole) == some "staff" ||
      sanitize_input (some rrole) == some "viewer") = false →
      set_user_role current remail rrole true users audit =
        (.error ⟨404, "Invalid role"⟩, users, audit)) ∧
    (∀ r, sanitize_input (some rrole) = some r →
      (r = "admin" ∨ r = "staff" ∨ r = "viewer") →
      (users.filter
        (fun u => some u.email == sanitize_input (some remail))).length = 0 →
      set_user_role current remail rrole true users audit =
        (.error ⟨404, "User not found"⟩, users, audit)) ∧
    (∀ r, sanitize_input (some rrole) = some r →
      (r = "admin" ∨ r = "staff" ∨ r = "viewer") →
      (users.filter
        (fun u => some u.email == sanitize_input (some remail))).length ≠ 0 →
      set_user_role current remail rrole true users audit =
        (.ok ("Role updated for " ++ optStr (sanitize_input (some remail)) ++
           " to " ++ r),
         users.map (fun u =>
           if some u.email == sanitize_input (some remail) then
             { u with role := r } else u),
         audit ++ [⟨current.id, "set_role", "User: " ++
           optStr (sanitize_input (some remail)) ++ ", New Role: " ++ r⟩])) := by
  refine ⟨?_, ?_, ?_⟩
  · intro h
    simp [set_user_role, require_role, hrole, h]
  · intro r hr hw hlen
    rcases hw with rfl | rfl | rfl <;>
      simp [set_user_role, require_role, hrole, hr, hlen]
  · intro r hr hw hlen
    rcases hw with rfl | rfl | rfl <;>
      simp [set_user_role, require_role, hrole, hr, hlen, log_action, optStr]

/-- Witness for `c9_set_role_behavior` at concrete inputs: all three
branches on the one-user table. -/
theorem c9_set_role_behavior_witness :
    set_user_role adminUser "bob@x.com" "superuser" true userTable [] =
      (.error ⟨404, "Invalid role"⟩, userTable, []) ∧
    set_user_role adminUser "nobody@x.com" "staff" true userTable [] =
      (.error ⟨404, "User not found"⟩, userTable, []) ∧
    set_user_role adminUser "bob@x.com" "staff" true userTable [] =
      (.ok "Role updated for bob@x.com to staff",
       [⟨"u9", "bob@x.com", "staff"⟩],
       [⟨"u-admin", "set_role", "User: bob@x.com, New Role: staff"⟩]) := by
  refine ⟨(c9_set_role_behavior adminUser "bob@x.com" "superuser" userTable
      [] (by decide)).1 (by decide), ?_, ?_⟩
  · have h := (c9_set_role_behavior adminUser "nobody@x.com" "staff"
      userTable [] (by decide)).2.1 "staff" (by decide) (Or.inr (Or.inl rfl))
      (by decide)
    exact h
  · have h := (c9_set_role_behavior adminUser "bob@x.com" "staff"
      userTable [] (by decide)).2.2 "staff" (by decide) (Or.inr (Or.inl rfl))
      (by decide)
    simpa using h

/-! ## Claim C10 — sanitization of persisted and returned values -/

/-- C10 is false for the contact field: the persisted client row does
not hold the sanitized form of the submitted contact but its SHA-256
hash. Submitting "a" (already sanitized) persists
`hash_contact "a"`, a 64-character hex digest different from "a". -/
theorem c10_contact_not_persisted_sanitized :
    sanitize_input (some "a") = some "a" ∧
    (create_client_endpoint staffUser "Jane" "Doe" "2000-01-01" "F" "a"
      "c9" "t1" "t2" true emptyDB []).2.1.clients =
      [⟨"c9", "Jane", "Doe", "2000-01-01", "F", hash_contact "a", "t1"⟩] ∧
    hash_contact "a" ≠ "a" :=
  ⟨rfl, rfl, by decide⟩

/-- C10 amended: every string field of the create endpoints and of
set-role is passed through `sanitize_input` (strip, then removal of
every `<`, `>`, `;`; an empty result becomes None) and the sanitized
form — not the submitted value — is what is persisted and returned,
with one exception: the client contact is persisted as the SHA-256 hash
of its sanitized form while the response returns the sanitized
plaintext. -/
theorem c10_sanitized_values_persisted (ua us : User) (db : DB)
    (audit : List AuditEntry) (users : List UserRow)
    (hua : ua.role = "admin") (hus : us.role = "staff") :
    (∀ pname n pdescr pid, sanitize_input (some pname) = some n →
      db.programs.any (fun r => r.program_id == pid) = false →
      create_program_endpoint ua pname pdescr pid true db audit =
        (.ok ⟨pid, some n, descArg pdescr⟩,
         { db with programs := db.programs ++ [⟨pid, n, descArg pdescr⟩] },
         audit ++ [⟨ua.id, "create_program",
           "Program ID: " ++ pid ++ ", Name: " ++ n⟩])) ∧
    (∀ rf rl rd rg rc fns lns ds gs cts cid t1 t2,
      sanitize_input (some rf) = some fns →
      sanitize_input (some rl) = some lns →
      sanitize_input (some rd) = some ds →
      sanitize_input (some rg) = some gs →
      sanitize_input (some rc) = some cts →
      db.clients.find? (fun r =>
        r.first_name == fns && r.last_name == lns && r.dob == ds &&
        r.gender == gs && r.contact == hash_contact cts) = none →
      db.clients.any (fun r => r.client_id == cid) = false →
      create_client_endpoint us rf rl rd rg rc cid t1 t2 true db audit =
        (.ok ⟨cid, some fns, some lns, some ds, some gs, some cts, t2, []⟩,
         { db with clients := db.clients ++
             [⟨cid, fns, lns, ds, gs, hash_contact cts, t1⟩] },
         audit ++ [⟨us.id, "create_client",
           "Client ID: " ++ cid ++ ", Name: " ++ fns ++ " " ++ lns⟩])) ∧
    (∀ remail rrole r, sanitize_input (some rrole) = some r →
      (r = "admin" ∨ r = "staff" ∨ r = "viewer") →
      (users.filter
        (fun u => some u.email == sanitize_input (some remail))).length ≠ 0 →
      set_user_role ua remail rrole true users audit =
        (.ok ("Role updated for " ++ optStr (sanitize_input (some remail)) ++
           " to " ++ r),
         users.map (fun u =>
           if some u.email == sanitize_input (some remail) then
             { u with role := r } else u),
         audit ++ [⟨ua.id, "set_role", "User: " ++
           optStr (sanitize_input (some remail)) ++ ", New Role: " ++ r⟩])) := by
  refine ⟨?_, ?_, ?_⟩
  · intro pname n pdescr pid hn hk
    simp [create_program_endpoint, require_role, hua, hn, create_program,
      hk, log_action, optStr]
  · intro rf rl rd rg rc fns lns ds gs cts cid t1 t2 hf hl hd hg hc hdup hk
    simp [create_client_endpoint, require_role, hus, hf, hl, hd, hg, hc,
      hashArg, create_client, hdup, hk, log_action, optStr]
  · intro remail rrole r hr hw hlen
    rcases hw with rfl | rfl | rfl <;>
      simp [set_user_role, require_role, hua, hr, hlen, log_action, optStr]

/-- Witness for `c10_sanitized_values_persisted` at concrete inputs:
a program whose name carries surrounding whitespace and whose
description sanitizes to None, a client whose gender field carries a
removed character and whose contact is persisted hashed, and a set-role
request whose role field carries surrounding whitespace. -/
theorem c10_sanitized_values_persisted_witness :
    create_program_endpoint adminUser " TB Care " (some " ; ") "pid-1" true
        emptyDB [] =
      (.ok ⟨"pid-1", some "TB Care", none⟩,
       ⟨[⟨"pid-1", "TB Care", none⟩], [], []⟩,
       [⟨"u-admin", "create_program", "Program ID: pid-1, Name: TB Care"⟩]) ∧
    create_client_endpoint staffUser "Jane" "Doe" "2000-01-01" "<F>" "a"
        "c9" "t1" "t2" true emptyDB [] =
      (.ok ⟨"c9", some "Jane", some "Doe", some "2000-01-01", some "F",
          some "a", "t2", []⟩,
       ⟨[], [⟨"c9", "Jane", "Doe", "2000-01-01", "F", hash_contact "a",
          "t1"⟩], []⟩,
       [⟨"u-staff", "create_client", "Client ID: c9, Name: Jane Doe"⟩]) ∧
    set_user_role adminUser "bob@x.com" " staff " true userTable [] =
      (.ok "Role updated for bob@x.com to staff",
       [⟨"u9", "bob@x.com", "staff"⟩],
       [⟨"u-admin", "set_role", "User: bob@x.com, New Role: staff"⟩]) := by
  have h := c10_sanitized_values_persisted adminUser staffUser emptyDB []
    userTable (by decide) (by decide)
  refine ⟨h.1 " TB Care " "TB Care" (some " ; ") "pid-1" (by decide)
      (by decide),
    h.2.1 "Jane" "Doe" "2000-01-01" "<F>" "a" "Jane" "Doe" "2000-01-01" "F"
      "a" "c9" "t1" "t2" (by decide) (by decide) (by decide) (by decide)
      (by decide) (by decide) (by decide), ?_⟩
  have h2 := (c10_sanitized_values_persisted adminUser staffUser emptyDB []
    userTable (by decide) (by decide)).2.2 "bob@x.com" " staff " "staff"
    (by decide) (Or.inr (Or.inl rfl)) (by decide)
  simpa using h2

end HealthySys
